import Mathlib

/-!
Shallow embedding of the PiCar-X brainstem control core
(`src/config.py`, `src/safety_reflexes.py`, `src/autonomous_fallback.py`,
`src/brain_connection.py`, `src/life_loop.py`).

Voltages, distances and times are rationals; PWM levels are integers.
Network effects are modelled by explicit outcome oracles passed to the
functions that in the source perform the awaits, so that every code path
of the Python `try`/`except` structure appears as an explicit branch.
-/

namespace Brainstem

/-! Source file: config.py -/

namespace config

def BATTERY_CRITICAL : ℚ := mkRat 21 2   -- 10.5 V
def BATTERY_LOW : ℚ := 11          -- Volts
def OBSTACLE_CRITICAL : ℚ := 10    -- cm
def LIFE_LOOP_FREQUENCY : Nat := 10  -- Hz

end config

/-! Source file: hardware_interface.py (data model) -/

structure SensorReading where
  timestamp : ℚ
  battery_voltage : ℚ
  ultrasonic_distance : ℚ
  power_source : String
  motor_current : ℚ × ℚ
  camera_frame : Option Nat := none    -- opaque payload, contents abstracted
  line_sensors : Option (ℚ × ℚ × ℚ) := none
  deriving DecidableEq

structure MotorCommand where
  motor_left_pwm : Int := 1500
  motor_right_pwm : Int := 1500
  servo_camera_pwm : Int := 1500
  buzzer_active : Bool := false
  deriving DecidableEq

/-! Source file: safety_reflexes.py -/

namespace SafetyReflexes

/-- Model of `SafetyReflexes.immediate_danger`: battery below critical, or
obstacle below critical, each sufficient on its own. -/
def immediate_danger (sensors : SensorReading) : Bool :=
  if sensors.battery_voltage < config.BATTERY_CRITICAL then true
  else if sensors.ultrasonic_distance < config.OBSTACLE_CRITICAL then true
  else false

end SafetyReflexes

/-! Source file: autonomous_fallback.py -/

structure FallbackState where
  isolation_start_time : Option ℚ := none
  deriving DecidableEq

namespace AutonomousFallback

def avoid_obstacle : MotorCommand :=
  { motor_left_pwm := 1400, motor_right_pwm := 1600 }

def seek_power : MotorCommand :=
  { motor_left_pwm := 1500, motor_right_pwm := 1500 }

def explore : MotorCommand :=
  { motor_left_pwm := 1530, motor_right_pwm := 1530 }

/-- Model of `AutonomousFallback.decide_action`: records the entry into
survival mode in its own state, then picks the first matching rule. -/
def decide_action (st : FallbackState) (now : ℚ) (sensors : SensorReading) :
    FallbackState × MotorCommand :=
  let st :=
    if st.isolation_start_time = none then { st with isolation_start_time := some now }
    else st
  if sensors.ultrasonic_distance < 30 then (st, avoid_obstacle)
  else if sensors.battery_voltage < mkRat 23 2 then (st, seek_power)  -- 11.5 V
  else (st, explore)

end AutonomousFallback

/-! Source file: brain_connection.py -/

structure SessionState where
  websocket : Bool := false            -- a session handle is held
  connected : Bool := false
  connection_attempts : Nat := 0
  last_successful_contact : ℚ := 0
  message_count : Nat := 0
  deriving DecidableEq

/-- Optional fields of a `MOTOR_COMMANDS` reply payload. -/
structure MotorFields where
  motor_left_pwm : Option Int := none
  motor_right_pwm : Option Int := none
  servo_camera_pwm : Option Int := none
  buzzer_active : Option Bool := none
  deriving DecidableEq

inductive ReplyKind where
  | motorCommands (data : MotorFields)
  | error (msg : String)
  | other
  deriving DecidableEq

/-- What the network does during one `send`/`recv` round trip. -/
inductive ExchangeOutcome where
  | reply (k : ReplyKind)
  | timeout
  | connectionClosed
  | otherFault
  deriving DecidableEq

/-- What the network does during one `connect` attempt. -/
inductive ConnectOutcome where
  | success
  | timeout
  | refused
  | otherError
  deriving DecidableEq

/-- The `data` sub-record of the serialized `SENSOR_DATA` request. -/
structure SensorDataFields where
  timestamp : ℚ
  battery_voltage : ℚ
  ultrasonic_distance : ℚ
  power_source : String
  motor_current : ℚ × ℚ
  has_camera_frame : Bool
  deriving DecidableEq

/-- The serialized `SENSOR_DATA` request message. -/
structure SensorMessage where
  type : String
  timestamp : ℚ
  robot_id : String
  data : SensorDataFields
  deriving DecidableEq

namespace BrainConnection

/-- The message dictionary built inside `send_sensors_get_commands`
(lines 71-84): every snapshot field except the camera frame itself,
which is reduced to a presence flag. -/
def buildSensorMessage (sensor_data : SensorReading) : SensorMessage :=
  { type := "SENSOR_DATA"
    timestamp := sensor_data.timestamp
    robot_id := "brainstem_robot"
    data :=
      { timestamp := sensor_data.timestamp
        battery_voltage := sensor_data.battery_voltage
        ultrasonic_distance := sensor_data.ultrasonic_distance
        power_source := sensor_data.power_source
        motor_current := sensor_data.motor_current
        has_camera_frame := sensor_data.camera_frame.isSome } }

/-- Model of `BrainConnection.connect`: on success the failure counter resets and the
contact time is recorded; every failure (timeout, refusal, or any other
exception) increments the counter and returns `false`. Total: no outcome
escapes the function. -/
def connect (st : SessionState) (now : ℚ) (o : ConnectOutcome) :
    SessionState × Bool :=
  match o with
  | .success =>
      ({ st with websocket := true, connected := true, connection_attempts := 0,
                 last_successful_contact := now }, true)
  | .timeout =>
      ({ st with connection_attempts := st.connection_attempts + 1 }, false)
  | .refused =>
      ({ st with connection_attempts := st.connection_attempts + 1 }, false)
  | .otherError =>
      ({ st with connection_attempts := st.connection_attempts + 1 }, false)

/-- Decoding a `MOTOR_COMMANDS` payload (lines 103-108): each missing field
takes its neutral default. -/
def decodeMotorCommands (f : MotorFields) : MotorCommand :=
  { motor_left_pwm := f.motor_left_pwm.getD 1500
    motor_right_pwm := f.motor_right_pwm.getD 1500
    servo_camera_pwm := f.servo_camera_pwm.getD 1500
    buzzer_active := f.buzzer_active.getD false }

/-- Model of `BrainConnection.send_sensors_get_commands` (lines 62-136): the
early return when not connected or without a session handle, then one round
trip whose outcome is given by the oracle. Timeouts and `ERROR`/unknown
replies leave the session state untouched; a closed connection or transport
fault clears the connected flag. The third component records the message
handed to the transport, `none` when the early return fires before any
message is built. -/
def send_sensors_get_commands (st : SessionState) (now : ℚ)
    (sensor_data : SensorReading) (o : ExchangeOutcome) :
    SessionState × Option MotorCommand × Option SensorMessage :=
  if ¬ st.connected ∨ ¬ st.websocket then (st, none, none)
  else
    let sent := some (buildSensorMessage sensor_data)
    match o with
    | .reply (.motorCommands f) =>
        ({ st with message_count := st.message_count + 1,
                   last_successful_contact := now },
         some (decodeMotorCommands f), sent)
    | .reply (.error _) => (st, none, sent)
    | .reply .other => (st, none, sent)
    | .timeout => (st, none, sent)       -- don't disconnect on timeout
    | .connectionClosed => ({ st with connected := false }, none, sent)
    | .otherFault => ({ st with connected := false }, none, sent)

/-- Model of `BrainConnection.disconnect`: best-effort close, always clears the flag. -/
def disconnect (st : SessionState) : SessionState :=
  { st with connected := false }

end BrainConnection

/-! Source file: life_loop.py -/

structure LoopState where
  session : SessionState := {}
  autonomous : FallbackState := {}
  loop_count : Nat := 0
  brain_connected : Bool := false
  last_brain_contact : ℚ := 0
  isolation_start_time : Option ℚ := none
  brain_response_times : List ℚ := []
  communication_errors : Nat := 0
  deriving DecidableEq

/-- The environment one cycle of `eternal_consciousness` interacts with:
current wall-clock time, the sensor read (which may raise), the network
behaviour of this cycle's exchange and of a reconnection attempt if one is
made, the measured round-trip time, and whether `execute_motor_commands`
raises this cycle. -/
structure CycleEnv where
  now : ℚ
  sensors : Except Unit SensorReading
  exchangeOutcome : ExchangeOutcome := .timeout
  latency : ℚ := 0
  applyFault : Bool := false
  connectOutcome : ConnectOutcome := .timeout

/-- Observable events of one cycle. -/
structure CycleTrace where
  dangerDetected : Bool := false
  emergencyStop : Bool := false
  exchangeCalled : Bool := false
  fallbackCalled : Bool := false
  connectCalled : Bool := false
  executedCommand : Option MotorCommand := none
  reportedIsolation : Option ℚ := none
  caughtFault : Bool := false
  sleepAfter : Option ℚ := none
  deriving DecidableEq

namespace LifeLoop

/-- Model of `_handle_brain_disconnect` (lines 311-322). -/
def handle_brain_disconnect (st : LoopState) (now : ℚ) : LoopState :=
  if st.brain_connected then
    { st with brain_connected := false,
              session := BrainConnection.disconnect st.session,
              isolation_start_time :=
                if st.isolation_start_time = none then some now
                else st.isolation_start_time }
  else st

/-- Model of `_reset_isolation_timer`. -/
def reset_isolation_timer (st : LoopState) : LoopState :=
  { st with isolation_start_time := none }

/-- The rolling latency window of `_brain_interaction`: append, then drop
the oldest entry once the length exceeds 100. -/
def pushLatency (l : List ℚ) (x : ℚ) : List ℚ :=
  let l := l ++ [x]
  if l.length > 100 then l.tail else l

/-- Model of `_periodic_brain_reconnection` (lines 324-344). Returns the new state,
whether a connect was attempted, and the isolation duration reported on
success. -/
def periodic_brain_reconnection (st : LoopState) (now : ℚ) (o : ConnectOutcome) :
    LoopState × Bool × Option ℚ :=
  if st.loop_count % (30 * config.LIFE_LOOP_FREQUENCY) = 0 then
    let r := BrainConnection.connect st.session now o
    if r.2 then
      (reset_isolation_timer
         { st with session := r.1, brain_connected := true, last_brain_contact := now },
       true,
       some (now - (st.isolation_start_time.getD now)))
    else ({ st with session := r.1 }, true, none)
  else (st, false, none)

/-- The `except` handler at the bottom of the `while` body (lines 241-245):
emergency stop, one more communication error, half-second recovery pause. -/
def cycleFaultHandler (st : LoopState) (tr : CycleTrace) : LoopState × CycleTrace :=
  ({ st with communication_errors := st.communication_errors + 1 },
   { tr with emergencyStop := true, caughtFault := true, sleepAfter := some (mkRat 1 2) })

/-- One iteration of the `while True` body of `eternal_consciousness`
(lines 199-245): increment the cycle counter, read sensors, run the safety
gate, then either brain interaction or autonomous mode, with the
surrounding `try`/`except`. -/
def cycleStep (st0 : LoopState) (env : CycleEnv) : LoopState × CycleTrace :=
  let st := { st0 with loop_count := st0.loop_count + 1 }
  match env.sensors with
  | .error _ => cycleFaultHandler st {}
  | .ok sensor_data =>
    if SafetyReflexes.immediate_danger sensor_data then
      (st, { dangerDetected := true, emergencyStop := true, sleepAfter := some 1 })
    else if st.brain_connected then
      let r := BrainConnection.send_sensors_get_commands st.session env.now
                 sensor_data env.exchangeOutcome
      let st := { st with session := r.1,
                          brain_response_times := pushLatency st.brain_response_times env.latency }
      match r.2.1 with
      | some c =>
          if env.applyFault then
            cycleFaultHandler st { exchangeCalled := true }
          else
            (reset_isolation_timer { st with last_brain_contact := env.now },
             { exchangeCalled := true, executedCommand := some c })
      | none =>
          let st := handle_brain_disconnect st env.now
          let f := AutonomousFallback.decide_action st.autonomous env.now sensor_data
          let st := { st with autonomous := f.1 }
          if env.applyFault then
            cycleFaultHandler st { exchangeCalled := true, fallbackCalled := true }
          else
            (st, { exchangeCalled := true, fallbackCalled := true,
                   executedCommand := some f.2 })
    else
      let f := AutonomousFallback.decide_action st.autonomous env.now sensor_data
      let st := { st with autonomous := f.1 }
      if env.applyFault then
        cycleFaultHandler st { fallbackCalled := true }
      else
        let r := periodic_brain_reconnection st env.now env.connectOutcome
        (r.1, { fallbackCalled := true, connectCalled := r.2.1,
                executedCommand := some f.2, reportedIsolation := r.2.2 })

/-- Model of `_attempt_brain_connection` (lines 284-309): up to three connect
attempts, stopping at the first success. -/
def attempt_brain_connection (st : LoopState) (now : ℚ)
    (o1 o2 o3 : ConnectOutcome) : LoopState :=
  let r1 := BrainConnection.connect st.session now o1
  if r1.2 then
    { st with session := r1.1, brain_connected := true, last_brain_contact := now }
  else
    let r2 := BrainConnection.connect r1.1 now o2
    if r2.2 then
      { st with session := r2.1, brain_connected := true, last_brain_contact := now }
    else
      let r3 := BrainConnection.connect r2.1 now o3
      if r3.2 then
        { st with session := r3.1, brain_connected := true, last_brain_contact := now }
      else
        { st with session := r3.1, brain_connected := false }

/-- The state in which `eternal_consciousness` enters its `while` loop:
the freshly constructed `LifeLoop` after the initial connection attempt. -/
def startup (now : ℚ) (o1 o2 o3 : ConnectOutcome) : LoopState :=
  attempt_brain_connection {} now o1 o2 o3

/-- States the loop can be in at a cycle boundary, indexed by the wall-clock
time at which they were reached; `step` requires time not to run backwards. -/
inductive ReachableAt : LoopState → ℚ → Prop
  | start (now : ℚ) (o1 o2 o3 : ConnectOutcome) :
      ReachableAt (startup now o1 o2 o3) now
  | step (st : LoopState) (t : ℚ) (env : CycleEnv) :
      ReachableAt st t → t ≤ env.now → ReachableAt (cycleStep st env).1 env.now

end LifeLoop

/-! Concrete sample values used by witnesses and counterexamples. -/

/-- A snapshot that triggers neither safety condition nor any fallback rule. -/
def safeReading : SensorReading :=
  { timestamp := 1, battery_voltage := 12, ultrasonic_distance := 50,
    power_source := "BATTERY", motor_current := (0, 0) }

/-- A snapshot with an obstacle below the critical threshold. -/
def dangerReading : SensorReading :=
  { safeReading with ultrasonic_distance := 5 }

/-- The loop state after a successful initial connection at time 0. -/
def stConnected : LoopState :=
  LifeLoop.startup 0 .success .timeout .timeout

/-- The loop state after three failed initial connection attempts at time 0. -/
def stIsolatedStart : LoopState :=
  LifeLoop.startup 0 .timeout .timeout .timeout

/-- A cycle at time 1 with safe sensors whose exchange would time out. -/
def envTimeout : CycleEnv :=
  { now := 1, sensors := .ok safeReading, exchangeOutcome := .timeout }

/-- A snapshot where both fallback rules apply: obstacle at 20 cm (below the
30 cm avoidance threshold, above the 10 cm critical one), battery 11 V. -/
def bothRulesReading : SensorReading :=
  { timestamp := 0, battery_voltage := 11, ultrasonic_distance := 20,
    power_source := "BATTERY", motor_current := (0, 0) }

/-- A session with an open, connected handle. -/
def sessConnected : SessionState :=
  { websocket := true, connected := true }

/-- A `MOTOR_COMMANDS` payload carrying only the left-motor field. -/
def leftOnlyFields : MotorFields :=
  { motor_left_pwm := some 1700 }

/-- Two snapshots differing only in the contents of the imaging payload. -/
def frameReadingA : SensorReading :=
  { safeReading with camera_frame := some 1 }

/-- See `frameReadingA`. -/
def frameReadingB : SensorReading :=
  { safeReading with camera_frame := some 2 }

/-- A cycle at time 1 whose sensor snapshot trips the safety gate. -/
def envDanger : CycleEnv :=
  { now := 1, sensors := .ok dangerReading, exchangeOutcome := .reply (.motorCommands {}) }

/-- A cycle at time 1 whose sensor read raises. -/
def envFault : CycleEnv :=
  { now := 1, sensors := .error () }

/-! Theorems for the claims. -/

/-- C1: the Safety Reflex Gate's `immediate_danger` returns `true` iff the
battery voltage is below the 10.5 V critical threshold or the obstacle
distance is below the 10 cm critical threshold; whenever both readings are
at or above their thresholds it reports no danger. -/
theorem safety_gate_danger_iff (s : SensorReading) :
    (SafetyReflexes.immediate_danger s = true ↔
      s.battery_voltage < config.BATTERY_CRITICAL ∨
      s.ultrasonic_distance < config.OBSTACLE_CRITICAL) ∧
    (config.BATTERY_CRITICAL ≤ s.battery_voltage →
      config.OBSTACLE_CRITICAL ≤ s.ultrasonic_distance →
      SafetyReflexes.immediate_danger s = false) := by
  unfold SafetyReflexes.immediate_danger
  constructor
  · constructor
    · intro h
      split_ifs at h with h1 h2 <;> simp_all
    · intro h
      split_ifs with h1 h2
      · rfl
      · rfl
      · rcases h with h | h
        · exact absurd h h1
        · exact absurd h h2
  · intro hb ho
    split_ifs with h1 h2
    · exact absurd h1 (not_lt.2 hb)
    · exact absurd h2 (not_lt.2 ho)
    · rfl

/-- Witness for C1 at a concrete safe snapshot: battery 12 V, obstacle 50 cm. -/
theorem safety_gate_danger_iff_witness :
    config.BATTERY_CRITICAL ≤ safeReading.battery_voltage ∧
    config.OBSTACLE_CRITICAL ≤ safeReading.ultrasonic_distance ∧
    SafetyReflexes.immediate_danger safeReading = false :=
  ⟨by decide, by decide,
   (safety_gate_danger_iff safeReading).2 (by decide) (by decide)⟩

/-- C5: the Fallback Policy's decision is a total function whose command
component depends only on the snapshot (not on the fallback state or the
clock); the near-obstacle rule (threshold 30 cm, strictly above the
Safety Gate's 10 cm critical threshold) takes precedence over the
low-battery rule, and otherwise a slow constant-forward command results. -/
theorem fallback_total_deterministic (st st' : FallbackState) (now now' : ℚ)
    (s : SensorReading) :
    (AutonomousFallback.decide_action st now s).2 =
      (AutonomousFallback.decide_action st' now' s).2 ∧
    (s.ultrasonic_distance < 30 →
      (AutonomousFallback.decide_action st now s).2 =
        AutonomousFallback.avoid_obstacle) ∧
    (¬ s.ultrasonic_distance < 30 → s.battery_voltage < mkRat 23 2 →
      (AutonomousFallback.decide_action st now s).2 =
        AutonomousFallback.seek_power) ∧
    (¬ s.ultrasonic_distance < 30 → ¬ s.battery_voltage < mkRat 23 2 →
      (AutonomousFallback.decide_action st now s).2 =
        AutonomousFallback.explore) ∧
    config.OBSTACLE_CRITICAL < 30 := by
  unfold AutonomousFallback.decide_action
  dsimp only
  refine ⟨?_, ?_, ?_, ?_, by decide⟩ <;> (intros; split_ifs <;> simp_all)

/-- Witness for C5: with obstacle 20 cm and battery 11 V both rules apply and
the near-obstacle differential turn wins. -/
theorem fallback_total_deterministic_witness :
    bothRulesReading.ultrasonic_distance < 30 ∧
    bothRulesReading.battery_voltage < mkRat 23 2 ∧
    (AutonomousFallback.decide_action {} 0 bothRulesReading).2 =
      AutonomousFallback.avoid_obstacle :=
  ⟨by decide, by decide,
   (fallback_total_deterministic {} {} 0 0 bothRulesReading).2.1 (by decide)⟩

/-- C7: `connect` resets the failure count and records the contact time on
success, increments the failure count and returns failure on timeout or
refusal (or any other error), and, being defined by exhaustive equations on
every outcome, never lets an exception escape. -/
theorem connect_contract (st : SessionState) (now : ℚ) (o : ConnectOutcome) :
    (o = .success →
      BrainConnection.connect st now o =
        ({ st with websocket := true, connected := true,
                   connection_attempts := 0, last_successful_contact := now }, true)) ∧
    (o ≠ .success →
      BrainConnection.connect st now o =
        ({ st with connection_attempts := st.connection_attempts + 1 }, false)) := by
  cases o <;> simp [BrainConnection.connect]

/-- Witness for C7 at concrete outcomes: one success from the empty session,
one timeout from a connected session. -/
theorem connect_contract_witness :
    BrainConnection.connect {} 5 .success =
      ({ websocket := true, connected := true, connection_attempts := 0,
         last_successful_contact := 5, message_count := 0 }, true) ∧
    BrainConnection.connect sessConnected 5 .timeout =
      ({ sessConnected with connection_attempts := 1 }, false) :=
  ⟨(connect_contract {} 5 .success).1 rfl,
   (connect_contract sessConnected 5 .timeout).2 (by decide)⟩

/-- C6: a timely `MOTOR_COMMANDS` reply is decoded with every absent field at
its neutral default — right motor and camera servo at 1500 and the buzzer
off when only the left-motor field is present — while the success count is
incremented and the last-contact time updated. -/
theorem exchange_motor_reply_defaults (st : SessionState) (now : ℚ)
    (s : SensorReading) (f : MotorFields)
    (hc : st.connected = true) (hw : st.websocket = true)
    (hr : f.motor_right_pwm = none) (hv : f.servo_camera_pwm = none)
    (hb : f.buzzer_active = none) :
    (BrainConnection.send_sensors_get_commands st now s
        (.reply (.motorCommands f))).2.1 =
      some { motor_left_pwm := f.motor_left_pwm.getD 1500, motor_right_pwm := 1500,
             servo_camera_pwm := 1500, buzzer_active := false } ∧
    (BrainConnection.send_sensors_get_commands st now s
        (.reply (.motorCommands f))).1.message_count = st.message_count + 1 ∧
    (BrainConnection.send_sensors_get_commands st now s
        (.reply (.motorCommands f))).1.last_successful_contact = now := by
  unfold BrainConnection.send_sensors_get_commands BrainConnection.decodeMotorCommands
  simp [hc, hw, hr, hv, hb]

/-- Witness for C6: a reply carrying only `motor_left_pwm = 1700`. -/
theorem exchange_motor_reply_defaults_witness :
    (BrainConnection.send_sensors_get_commands sessConnected 2 safeReading
        (.reply (.motorCommands leftOnlyFields))).2.1 =
      some { motor_left_pwm := 1700, motor_right_pwm := 1500,
             servo_camera_pwm := 1500, buzzer_active := false } ∧
    (BrainConnection.send_sensors_get_commands sessConnected 2 safeReading
        (.reply (.motorCommands leftOnlyFields))).1.message_count = 1 ∧
    (BrainConnection.send_sensors_get_commands sessConnected 2 safeReading
        (.reply (.motorCommands leftOnlyFields))).1.last_successful_contact = 2 :=
  exchange_motor_reply_defaults sessConnected 2 safeReading leftOnlyFields
    rfl rfl rfl rfl rfl

/-- C9: the serialized `SENSOR_DATA` request depends on the imaging payload
only through its presence: snapshots agreeing on all serialized fields and
on whether a frame is present produce identical request messages. -/
theorem sensor_message_ignores_frame_contents (s1 s2 : SensorReading)
    (ht : s1.timestamp = s2.timestamp)
    (hb : s1.battery_voltage = s2.battery_voltage)
    (hd : s1.ultrasonic_distance = s2.ultrasonic_distance)
    (hp : s1.power_source = s2.power_source)
    (hm : s1.motor_current = s2.motor_current)
    (hc : s1.camera_frame.isSome = s2.camera_frame.isSome) :
    BrainConnection.buildSensorMessage s1 = BrainConnection.buildSensorMessage s2 := by
  unfold BrainConnection.buildSensorMessage
  rw [ht, hb, hd, hp, hm, hc]

/-- Witness for C9: two snapshots with different pixel payloads serialize to
the same request. -/
theorem sensor_message_ignores_frame_contents_witness :
    frameReadingA.camera_frame ≠ frameReadingB.camera_frame ∧
    BrainConnection.buildSensorMessage frameReadingA =
      BrainConnection.buildSensorMessage frameReadingB :=
  ⟨by decide,
   sensor_message_ignores_frame_contents frameReadingA frameReadingB
     rfl rfl rfl rfl rfl rfl⟩

/-- C10: calling `send_sensors_get_commands` while disconnected or without a
session handle returns no command, sends nothing, and leaves the whole
session state unchanged. -/
theorem exchange_without_session_is_noop (st : SessionState) (now : ℚ)
    (s : SensorReading) (o : ExchangeOutcome)
    (h : st.connected = false ∨ st.websocket = false) :
    BrainConnection.send_sensors_get_commands st now s o = (st, none, none) := by
  unfold BrainConnection.send_sensors_get_commands
  rcases h with h | h <;> simp [h]

/-- Witness for C10 on the fresh (never connected) session. -/
theorem exchange_without_session_is_noop_witness :
    BrainConnection.send_sensors_get_commands {} 3 safeReading .timeout =
      ({}, none, none) :=
  exchange_without_session_is_noop {} 3 safeReading .timeout (Or.inl rfl)

/-- C2: on any cycle whose snapshot trips the safety gate, the loop issues
the emergency stop and neither the exchange, nor the fallback decision, nor
a reconnection attempt happens, whatever the connection state; conversely an
exchange or fallback decision happens only on cycles whose snapshot was read
and passed the gate. -/
theorem safety_override_suppresses_cycle (st : LoopState) (env : CycleEnv) :
    (∀ sd, env.sensors = .ok sd → SafetyReflexes.immediate_danger sd = true →
      (LifeLoop.cycleStep st env).2.emergencyStop = true ∧
      (LifeLoop.cycleStep st env).2.exchangeCalled = false ∧
      (LifeLoop.cycleStep st env).2.fallbackCalled = false ∧
      (LifeLoop.cycleStep st env).2.connectCalled = false ∧
      (LifeLoop.cycleStep st env).2.executedCommand = none) ∧
    ((LifeLoop.cycleStep st env).2.exchangeCalled = true ∨
      (LifeLoop.cycleStep st env).2.fallbackCalled = true →
      ∃ sd, env.sensors = .ok sd ∧ SafetyReflexes.immediate_danger sd = false) := by
  constructor
  · intro sd hsd hdanger
    unfold LifeLoop.cycleStep
    rw [hsd]
    simp [hdanger]
  · intro h
    rcases hs : env.sensors with e | sd
    · unfold LifeLoop.cycleStep at h
      rw [hs] at h
      simp [LifeLoop.cycleFaultHandler] at h
    · cases hd : SafetyReflexes.immediate_danger sd
      · exact ⟨sd, by simp [hs], hd⟩
      · unfold LifeLoop.cycleStep at h
        rw [hs] at h
        simp [hd] at h

/-- Witness for C2: a connected loop with a 5 cm obstacle, an exchange that
would have succeeded, still gets only the emergency stop. -/
theorem safety_override_suppresses_cycle_witness :
    SafetyReflexes.immediate_danger dangerReading = true ∧
    (LifeLoop.cycleStep stConnected envDanger).2.emergencyStop = true ∧
    (LifeLoop.cycleStep stConnected envDanger).2.exchangeCalled = false ∧
    (LifeLoop.cycleStep stConnected envDanger).2.fallbackCalled = false ∧
    (LifeLoop.cycleStep stConnected envDanger).2.connectCalled = false ∧
    (LifeLoop.cycleStep stConnected envDanger).2.executedCommand = none :=
  ⟨by decide,
   (safety_override_suppresses_cycle stConnected envDanger).1 dangerReading rfl (by decide)⟩

/-- C8: a fault raised inside a cycle — a failing sensor read, or a failing
actuation on a cycle that passed the gate — is caught by the loop's handler:
emergency stop, exactly one more communication error, a half-second recovery
pause, and the cycle still completes (the cycle counter advances and a
successor state is produced). -/
theorem cycle_fault_contained (st : LoopState) (env : CycleEnv) :
    (env.sensors = .error () →
      (LifeLoop.cycleStep st env).1.communication_errors = st.communication_errors + 1 ∧
      (LifeLoop.cycleStep st env).2.emergencyStop = true ∧
      (LifeLoop.cycleStep st env).2.caughtFault = true ∧
      (LifeLoop.cycleStep st env).2.sleepAfter = some (mkRat 1 2) ∧
      (LifeLoop.cycleStep st env).1.loop_count = st.loop_count + 1) ∧
    (∀ sd, env.sensors = .ok sd → SafetyReflexes.immediate_danger sd = false →
      env.applyFault = true →
      (LifeLoop.cycleStep st env).1.communication_errors = st.communication_errors + 1 ∧
      (LifeLoop.cycleStep st env).2.emergencyStop = true ∧
      (LifeLoop.cycleStep st env).2.caughtFault = true ∧
      (LifeLoop.cycleStep st env).2.sleepAfter = some (mkRat 1 2) ∧
      (LifeLoop.cycleStep st env).1.loop_count = st.loop_count + 1) := by
  constructor
  · intro hsd
    unfold LifeLoop.cycleStep
    rw [hsd]
    simp [LifeLoop.cycleFaultHandler]
  · intro sd hsd hsafe happly
    unfold LifeLoop.cycleStep
    rw [hsd]
    simp only [hsafe, happly, Bool.false_eq_true, if_false, if_true]
    split
    · split <;>
        simp_all [LifeLoop.cycleFaultHandler, LifeLoop.handle_brain_disconnect,
          LifeLoop.reset_isolation_timer]
    · simp_all [LifeLoop.cycleFaultHandler]

/-- C3 counterexample: a loop that is CONNECTED (reached by a successful
initial connection) whose cycle's exchange times out does NOT stay
CONNECTED — the loop transitions to autonomous mode and the session's
connected flag is cleared, contradicting the claim that the state stays
`CONNECTED` and the session remains open. -/
theorem exchange_timeout_keeps_connected_cex :
    stConnected.brain_connected = true ∧
    stConnected.session.connected = true ∧
    envTimeout.exchangeOutcome = .timeout ∧
    (LifeLoop.cycleStep stConnected envTimeout).1.brain_connected = false ∧
    (LifeLoop.cycleStep stConnected envTimeout).1.session.connected = false :=
  ⟨by decide, by decide, rfl, by decide, by decide⟩

/-- C3 amended: on an exchange timeout the Decision Service Link itself
returns "no command" and leaves the whole session state (connected flag,
handle, counters) untouched, but the Control Loop treats the absent command
as a brain disconnect: for that cycle it transitions out of CONNECTED,
closes the session, and takes the Fallback Policy's command. -/
theorem exchange_timeout_isolates_loop (sess : SessionState) (now : ℚ)
    (s : SensorReading) (hc : sess.connected = true) (hw : sess.websocket = true)
    (st : LoopState) (env : CycleEnv) (sd : SensorReading)
    (hb : st.brain_connected = true) (hs : env.sensors = .ok sd)
    (hsafe : SafetyReflexes.immediate_danger sd = false)
    (ho : env.exchangeOutcome = .timeout) :
    BrainConnection.send_sensors_get_commands sess now s .timeout =
      (sess, none, some (BrainConnection.buildSensorMessage s)) ∧
    (LifeLoop.cycleStep st env).1.brain_connected = false ∧
    (LifeLoop.cycleStep st env).1.session.connected = false ∧
    (LifeLoop.cycleStep st env).2.fallbackCalled = true := by
  refine ⟨?_, ?_⟩
  · unfold BrainConnection.send_sensors_get_commands
    simp [hc, hw]
  · unfold LifeLoop.cycleStep
    rw [hs]
    have hnone : (BrainConnection.send_sensors_get_commands st.session env.now
        sd env.exchangeOutcome).2.1 = none := by
      rw [ho]
      unfold BrainConnection.send_sensors_get_commands
      split <;> rfl
    simp only [hsafe, hb, Bool.false_eq_true, if_false, if_true, hnone]
    split <;>
      simp_all [LifeLoop.cycleFaultHandler, LifeLoop.handle_brain_disconnect,
        BrainConnection.disconnect]

/-- Witness for C3's amended theorem at the concrete connected loop and a
timing-out cycle. -/
theorem exchange_timeout_isolates_loop_witness :
    BrainConnection.send_sensors_get_commands sessConnected 1 safeReading .timeout =
      (sessConnected, none, some (BrainConnection.buildSensorMessage safeReading)) ∧
    (LifeLoop.cycleStep stConnected envTimeout).1.brain_connected = false ∧
    (LifeLoop.cycleStep stConnected envTimeout).1.session.connected = false ∧
    (LifeLoop.cycleStep stConnected envTimeout).2.fallbackCalled = true :=
  exchange_timeout_isolates_loop sessConnected 1 safeReading rfl rfl
    stConnected envTimeout safeReading (by decide) rfl (by decide) rfl

/-- Witness for C8: a connected loop whose sensor read raises at time 1. -/
theorem cycle_fault_contained_witness :
    (LifeLoop.cycleStep stConnected envFault).1.communication_errors =
      stConnected.communication_errors + 1 ∧
    (LifeLoop.cycleStep stConnected envFault).2.emergencyStop = true ∧
    (LifeLoop.cycleStep stConnected envFault).2.caughtFault = true ∧
    (LifeLoop.cycleStep stConnected envFault).2.sleepAfter = some (mkRat 1 2) ∧
    (LifeLoop.cycleStep stConnected envFault).1.loop_count =
      stConnected.loop_count + 1 :=
  (cycle_fault_contained stConnected envFault).1 rfl

/-! Helper lemmas about the isolation timer, shared by the C4 development. -/

/-- The initial connection attempt never touches the isolation timer. -/
lemma startup_isolation_none (now : ℚ) (o1 o2 o3 : ConnectOutcome) :
    (LifeLoop.startup now o1 o2 o3).isolation_start_time = none := by
  unfold LifeLoop.startup LifeLoop.attempt_brain_connection
  cases o1 <;> cases o2 <;> cases o3 <;> rfl

/-- One cycle leaves the isolation timer alone, clears it, or stamps it with
the cycle's wall-clock time. -/
lemma cycleStep_isolation_cases (st : LoopState) (env : CycleEnv) :
    (LifeLoop.cycleStep st env).1.isolation_start_time = st.isolation_start_time ∨
    (LifeLoop.cycleStep st env).1.isolation_start_time = none ∨
    (LifeLoop.cycleStep st env).1.isolation_start_time = some env.now := by
  unfold LifeLoop.cycleStep LifeLoop.cycleFaultHandler LifeLoop.handle_brain_disconnect
    LifeLoop.reset_isolation_timer LifeLoop.periodic_brain_reconnection
  generalize env.sensors = gs
  rcases gs with e | sd
  · simp
  · dsimp only
    by_cases hd : SafetyReflexes.immediate_danger sd = true
    · simp [hd]
    · simp only [hd, Bool.false_eq_true, if_false]
      by_cases hb : st.brain_connected = true
      · simp only [hb, if_true]
        rcases hq : (BrainConnection.send_sensors_get_commands st.session env.now sd
            env.exchangeOutcome).2.1 with _ | c <;>
          simp only [hq] <;> split_ifs <;>
          simp_all [LifeLoop.reset_isolation_timer, LifeLoop.handle_brain_disconnect,
            LifeLoop.cycleFaultHandler]
      · simp only [hb, if_false]
        split_ifs <;>
          simp_all [LifeLoop.reset_isolation_timer, LifeLoop.cycleFaultHandler]

/-- One cycle preserves the invariant that the timer is set only while the
loop is disconnected. -/
lemma cycleStep_isolation_connected (st : LoopState) (env : CycleEnv)
    (ih : st.isolation_start_time.isSome = true → st.brain_connected = false) :
    (LifeLoop.cycleStep st env).1.isolation_start_time.isSome = true →
    (LifeLoop.cycleStep st env).1.brain_connected = false := by
  unfold LifeLoop.cycleStep LifeLoop.cycleFaultHandler LifeLoop.handle_brain_disconnect
    LifeLoop.reset_isolation_timer LifeLoop.periodic_brain_reconnection
  generalize env.sensors = gs
  rcases gs with e | sd
  · simp_all
  · dsimp only
    by_cases hd : SafetyReflexes.immediate_danger sd = true
    · simp_all [hd]
    · simp only [hd, Bool.false_eq_true, if_false]
      by_cases hb : st.brain_connected = true
      · simp only [hb, if_true]
        rcases hq : (BrainConnection.send_sensors_get_commands st.session env.now sd
            env.exchangeOutcome).2.1 with _ | c <;>
          simp only [hq] <;> split_ifs <;>
          simp_all [LifeLoop.reset_isolation_timer, LifeLoop.handle_brain_disconnect,
            LifeLoop.cycleFaultHandler]
      · simp only [hb, if_false]
        split_ifs <;>
          simp_all [LifeLoop.reset_isolation_timer, LifeLoop.cycleFaultHandler]

/-- On every reachable state the timer is set only while disconnected. -/
lemma reachable_isolation_connected {st : LoopState} {t : ℚ}
    (h : LifeLoop.ReachableAt st t) :
    st.isolation_start_time.isSome = true → st.brain_connected = false := by
  induction h with
  | start now o1 o2 o3 =>
      intro hu
      rw [startup_isolation_none] at hu
      cases hu
  | step st t env hr ht ih =>
      exact cycleStep_isolation_connected st env ih

/-- Any value held by the timer of a reachable state is a past time. -/
lemma reachable_isolation_le {st : LoopState} {t : ℚ}
    (h : LifeLoop.ReachableAt st t) :
    ∀ u, st.isolation_start_time = some u → u ≤ t := by
  induction h with
  | start now o1 o2 o3 =>
      intro u hu
      rw [startup_isolation_none] at hu
      cases hu
  | step st t env hr ht ih =>
      intro u hu
      rcases cycleStep_isolation_cases st env with hc | hc | hc
      · rw [hc] at hu
        exact (ih u hu).trans ht
      · rw [hc] at hu
        cases hu
      · have := Option.some.inj (hc.symm.trans hu)
        exact le_of_eq this.symm

/-- The isolation duration reported by a reconnecting cycle is the elapsed
time since the recorded episode start (zero when no start was recorded). -/
lemma cycleStep_reported_eq (st : LoopState) (env : CycleEnv) (d : ℚ)
    (h : (LifeLoop.cycleStep st env).2.reportedIsolation = some d) :
    d = env.now - (st.isolation_start_time.getD env.now) := by
  revert h
  unfold LifeLoop.cycleStep LifeLoop.cycleFaultHandler LifeLoop.handle_brain_disconnect
    LifeLoop.reset_isolation_timer LifeLoop.periodic_brain_reconnection
  generalize env.sensors = gs
  rcases gs with e | sd
  · intro h
    simp at h
  · dsimp only
    by_cases hd : SafetyReflexes.immediate_danger sd = true
    · intro h
      simp [hd] at h
    · simp only [hd, Bool.false_eq_true, if_false]
      by_cases hb : st.brain_connected = true
      · simp only [hb, if_true]
        rcases hq : (BrainConnection.send_sensors_get_commands st.session env.now sd
            env.exchangeOutcome).2.1 with _ | c <;>
          simp only [hq] <;> split_ifs <;> intro h <;>
          simp_all [LifeLoop.reset_isolation_timer, LifeLoop.handle_brain_disconnect,
            LifeLoop.cycleFaultHandler]
      · simp only [hb, if_false]
        split_ifs <;> intro h <;>
          simp_all [LifeLoop.reset_isolation_timer, LifeLoop.cycleFaultHandler]

/-- While disconnected with the timer set, a cycle either keeps both (episode
persists) or reconnects and clears the timer (episode ends). -/
lemma cycleStep_episode_persists (st : LoopState) (env : CycleEnv) (u : ℚ)
    (hb : st.brain_connected = false) (hi : st.isolation_start_time = some u) :
    ((LifeLoop.cycleStep st env).1.brain_connected = false ∧
      (LifeLoop.cycleStep st env).1.isolation_start_time = some u) ∨
    ((LifeLoop.cycleStep st env).1.brain_connected = true ∧
      (LifeLoop.cycleStep st env).1.isolation_start_time = none) := by
  unfold LifeLoop.cycleStep LifeLoop.cycleFaultHandler LifeLoop.handle_brain_disconnect
    LifeLoop.reset_isolation_timer LifeLoop.periodic_brain_reconnection
  generalize env.sensors = gs
  rcases gs with e | sd
  · simp_all
  · dsimp only
    by_cases hd : SafetyReflexes.immediate_danger sd = true
    · simp_all [hd]
    · simp only [hd, Bool.false_eq_true, if_false, hb, Bool.true_eq_false]
      split_ifs <;>
        simp_all [LifeLoop.reset_isolation_timer, LifeLoop.cycleFaultHandler]

/-- A connected loop with a clear timer either stays connected for the next
cycle or enters an episode stamped with the cycle's time. -/
lemma cycleStep_episode_entry (st : LoopState) (env : CycleEnv)
    (hb : st.brain_connected = true) (hi : st.isolation_start_time = none) :
    (LifeLoop.cycleStep st env).1.brain_connected = true ∨
    ((LifeLoop.cycleStep st env).1.brain_connected = false ∧
      (LifeLoop.cycleStep st env).1.isolation_start_time = some env.now) := by
  unfold LifeLoop.cycleStep LifeLoop.cycleFaultHandler LifeLoop.handle_brain_disconnect
    LifeLoop.reset_isolation_timer LifeLoop.periodic_brain_reconnection
  generalize env.sensors = gs
  rcases gs with e | sd
  · simp_all
  · dsimp only
    by_cases hd : SafetyReflexes.immediate_danger sd = true
    · simp_all [hd]
    · simp only [hd, Bool.false_eq_true, if_false]
      by_cases hbc : st.brain_connected = true
      · simp only [hbc, if_true]
        rcases hq : (BrainConnection.send_sensors_get_commands st.session env.now sd
            env.exchangeOutcome).2.1 with _ | c <;>
          simp only [hq] <;> split_ifs <;>
          simp_all [LifeLoop.reset_isolation_timer, LifeLoop.handle_brain_disconnect,
            LifeLoop.cycleFaultHandler]
      · exact absurd hb hbc

/-- C4 counterexample: after three failed initial connection attempts the
loop runs a full autonomous cycle — it is in a disconnected episode — yet
its isolation-episode start time is not set, refuting the claimed "if and
only if". -/
theorem isolation_timer_iff_cex :
    LifeLoop.ReachableAt (LifeLoop.cycleStep stIsolatedStart envTimeout).1
      envTimeout.now ∧
    (LifeLoop.cycleStep stIsolatedStart envTimeout).1.brain_connected = false ∧
    (LifeLoop.cycleStep stIsolatedStart envTimeout).1.isolation_start_time = none :=
  ⟨LifeLoop.ReachableAt.step stIsolatedStart 0 envTimeout
     (LifeLoop.ReachableAt.start 0 .timeout .timeout .timeout) (by decide),
   by decide, by decide⟩

/-- C4 amended: on every reachable state the isolation-episode start time is
set only while the loop is disconnected; during an episode it is set at most
once (it never changes until the cycle where reconnection succeeds, which
clears it); an episode entered from the connected state stamps the entry
time at that cycle; and any reported isolation duration is nonnegative.
(Episodes that begin at startup, before any successful connection, run with
no start time set — the one deviation from the claimed "if and only if".) -/
theorem isolation_timer_invariant (st : LoopState) (t : ℚ) (env : CycleEnv)
    (hr : LifeLoop.ReachableAt st t) (ht : t ≤ env.now) :
    (st.isolation_start_time.isSome = true → st.brain_connected = false) ∧
    (∀ u, st.brain_connected = false → st.isolation_start_time = some u →
      ((LifeLoop.cycleStep st env).1.brain_connected = false ∧
        (LifeLoop.cycleStep st env).1.isolation_start_time = some u) ∨
      ((LifeLoop.cycleStep st env).1.brain_connected = true ∧
        (LifeLoop.cycleStep st env).1.isolation_start_time = none)) ∧
    (st.brain_connected = true →
      (LifeLoop.cycleStep st env).1.brain_connected = true ∨
      ((LifeLoop.cycleStep st env).1.brain_connected = false ∧
        (LifeLoop.cycleStep st env).1.isolation_start_time = some env.now)) ∧
    (∀ d, (LifeLoop.cycleStep st env).2.reportedIsolation = some d → 0 ≤ d) := by
  refine ⟨reachable_isolation_connected hr, ?_, ?_, ?_⟩
  · intro u hb hi
    exact cycleStep_episode_persists st env u hb hi
  · intro hb
    have hi : st.isolation_start_time = none := by
      cases hu : st.isolation_start_time with
      | none => rfl
      | some u =>
          have := reachable_isolation_connected hr (by rw [hu]; rfl)
          rw [this] at hb
          cases hb
    exact cycleStep_episode_entry st env hb hi
  · intro d hd
    have heq := cycleStep_reported_eq st env d hd
    cases hu : st.isolation_start_time with
    | none =>
        rw [hu] at heq
        simp at heq
        rw [heq]
    | some u =>
        rw [hu] at heq
        have hle : u ≤ env.now := (reachable_isolation_le hr u hu).trans ht
        rw [heq]
        simp [sub_nonneg, hle]

/-- Witness for C4's amended theorem: from the concrete connected startup
state, a timing-out cycle enters an episode stamped with time 1. -/
theorem isolation_timer_invariant_witness :
    (LifeLoop.cycleStep stConnected envTimeout).1.brain_connected = true ∨
    ((LifeLoop.cycleStep stConnected envTimeout).1.brain_connected = false ∧
      (LifeLoop.cycleStep stConnected envTimeout).1.isolation_start_time =
        some envTimeout.now) :=
  (isolation_timer_invariant stConnected 0 envTimeout
     (LifeLoop.ReachableAt.start 0 .success .timeout .timeout)
     (by decide)).2.2.1 rfl

end Brainstem
